import Mathlib

/-!
Verification of the skills-selection subsystem and the title generator of
the `deepagents_cli` repository.

The Python sources are shallowly embedded:

* `src/deepagents_cli/widgets/skill_card.py` → `SkillCard`;
* `src/deepagents_cli/widgets/skills_messages.py` → `SkillsMessage`;
* `src/deepagents_cli/widgets/skills_modal.py` → `ModalState` together with
  the functions `load_skills`, `update_selection`, `action_navigate_up`,
  `action_navigate_down`, `action_navigate_left`, `action_navigate_right`,
  `action_select`, `action_cancel`, `on_click`;
* `src/deepagents_cli/title_generator.py` → `clean_title`, `generate_title`.

Conventions of the embedding:

* Mutable attributes of the `SkillsModal` object become fields of
  `ModalState`; each Python method becomes a function
  `ModalState → ModalState` (or `→ Option ModalState` when the body can
  raise, `none` modelling an uncaught Python exception).
* `self.post_message(m)` is modelled by appending `m` to the `posted`
  field; `self.dismiss(v)` by appending `v` to the `dismissed` field.
  Both are framework calls whose effect on this subsystem is exactly the
  emitted notification / resolution value.
* We model the mounted modal: `compose` has run, so the grid and the
  empty-state `Static` exist (`self._grid`/`self._empty_message` are not
  `None`); only their `display` booleans are tracked.
* The external catalog loader `list_skills(...)` is a collaborator: its
  result is passed to `load_skills` as an argument.
* Python object identity of freshly constructed `SkillCard` widgets is
  modelled by the extra field `cid`; `_load_skills` gives the cards of one
  load pairwise distinct `cid`s (their positions).
-/

/-- A skill record as returned by the catalog loader: a dict with key
`name` always present and keys `description` / `source` possibly absent
(the modal reads them with `skill.get("description", "")` and
`skill.get("source", "user")`). -/
structure Skill where
  name : String
  description : Option String
  source : Option String
deriving Repr, DecidableEq

/-- Embeds `SkillCard.__init__` from `skill_card.py`: stores name, description and
the lower-cased source.  `cid` models Python object identity of the widget
(distinct freshly constructed widgets are distinct objects even when their
displayed fields coincide). -/
structure SkillCard where
  cid : Nat
  name : String
  description : String
  source : String
deriving Repr, DecidableEq

/-- Embeds `SkillCard.get_skill_name` from `skill_card.py`. -/
def SkillCard.get_skill_name (c : SkillCard) : String :=
  c.name

/-- The messages of `skills_messages.py` that the modal can post
(`ShowSkillsModal` is sent by the chat input, not by the modal, and is not
needed here). -/
inductive SkillsMessage where
  | skillsSelected (skill_name : String)
  | skillsCancelled
deriving Repr, DecidableEq

/-- The mutable state of a mounted `SkillsModal` instance, together with
the observable effects it has produced (`posted`, `dismissed`). -/
structure ModalState where
  /-- Field `self._skill_cards`. -/
  skill_cards : List SkillCard
  /-- Field `self._selected_index` (a Python `int`, `-1` = no selection). -/
  selected_index : Int
  /-- Field `self._grid.display`. -/
  grid_display : Bool
  /-- Field `self._empty_message.display` (set to `False` in `compose`). -/
  empty_message_display : Bool
  /-- which card currently has focus (`card.focus()` in
  `_update_selection`), if any -/
  focused : Option Nat
  /-- every message passed to `self.post_message`, in order -/
  posted : List SkillsMessage
  /-- every value passed to `self.dismiss`, in order (`none` = `None`) -/
  dismissed : List (Option String)
deriving Repr, DecidableEq

/-- The state after `SkillsModal.__init__` and `compose`: no cards,
`_selected_index = -1`, grid shown, empty-state message hidden, nothing
posted or dismissed. -/
def initState : ModalState :=
  { skill_cards := []
    selected_index := -1
    grid_display := true
    empty_message_display := false
    focused := none
    posted := []
    dismissed := [] }

/-- Embeds `SkillsModal._update_selection`: no-op when there are no cards;
otherwise re-marks the cards (visual CSS classes, not tracked) and focuses
the selected card when `0 <= self._selected_index < len(self._skill_cards)`. -/
def update_selection (s : ModalState) : ModalState :=
  if s.skill_cards = [] then s
  else if 0 ≤ s.selected_index ∧ s.selected_index < (s.skill_cards.length : Int) then
    { s with focused := some s.selected_index.toNat }
  else s

/-- Embeds `str.lower()` as used in `SkillCard.__init__` (`source.lower()`):
character-wise lower-casing of the string (the `source` values are ASCII
`"user"`/`"project"`, on which Python's `lower` acts character-wise). -/
def pyLower (s : String) : String :=
  String.mk (s.data.map Char.toLower)

/-- The card built in the `for skill in skills` loop of
`SkillsModal._load_skills` for the skill at position `cid`. -/
def mkSkillCard (cid : Nat) (sk : Skill) : SkillCard :=
  { cid := cid
    name := sk.name
    description := sk.description.getD ""
    source := pyLower (sk.source.getD "user") }

/-- Embeds `SkillsModal._load_skills`, with the result of the external
`list_skills(...)` call passed in as `skills`.  Empty catalog: hide the
grid, show the empty-state message and return (cards and selection are
left untouched).  Non-empty catalog: clear and rebuild the card list, then
select index `0` and update the selection. -/
def load_skills (skills : List Skill) (s : ModalState) : ModalState :=
  if skills = [] then
    { s with grid_display := false, empty_message_display := true }
  else
    let cards := skills.enum.map fun p => mkSkillCard p.1 p.2
    let s1 := { s with skill_cards := cards }
    if cards = [] then s1
    else update_selection { s1 with selected_index := 0 }

/-- Embeds `SkillsModal.action_navigate_up`. -/
def action_navigate_up (s : ModalState) : ModalState :=
  if s.skill_cards = [] ∨ s.selected_index < 0 then s
  else
    let new_index := s.selected_index - 2
    let new_index :=
      if new_index < 0 then (s.skill_cards.length : Int) - 1 else new_index
    update_selection { s with selected_index := new_index }

/-- Embeds `SkillsModal.action_navigate_down`. -/
def action_navigate_down (s : ModalState) : ModalState :=
  if s.skill_cards = [] then s
  else
    let new_index := s.selected_index + 2
    let new_index :=
      if (s.skill_cards.length : Int) ≤ new_index then 0 else new_index
    update_selection { s with selected_index := new_index }

/-- Embeds `SkillsModal.action_navigate_left`. -/
def action_navigate_left (s : ModalState) : ModalState :=
  if s.skill_cards = [] ∨ s.selected_index < 0 then s
  else
    let new_index := s.selected_index - 1
    let new_index :=
      if new_index < 0 then (s.skill_cards.length : Int) - 1 else new_index
    update_selection { s with selected_index := new_index }

/-- Embeds `SkillsModal.action_navigate_right`. -/
def action_navigate_right (s : ModalState) : ModalState :=
  if s.skill_cards = [] then s
  else
    let new_index := s.selected_index + 1
    let new_index :=
      if (s.skill_cards.length : Int) ≤ new_index then 0 else new_index
    update_selection { s with selected_index := new_index }

/-- Embeds `SkillsModal.action_select`.  Guard: silent return when there are no
cards or no selection.  Otherwise `self._skill_cards[self._selected_index]`
is read (with `selected_index ≥ 0` this raises `IndexError` — modelled by
`none` — exactly when the index is past the end), a `SkillsSelected`
message is posted and the modal is dismissed with the skill name. -/
def action_select (s : ModalState) : Option ModalState :=
  if s.skill_cards = [] ∨ s.selected_index < 0 then some s
  else
    match s.skill_cards[s.selected_index.toNat]? with
    | none => none
    | some card =>
        some { s with
                posted := s.posted ++ [SkillsMessage.skillsSelected card.get_skill_name]
                dismissed := s.dismissed ++ [some card.get_skill_name] }

/-- Embeds `SkillsModal.action_cancel`: unconditionally posts `SkillsCancelled`
and dismisses with `None`. -/
def action_cancel (s : ModalState) : ModalState :=
  { s with
      posted := s.posted ++ [SkillsMessage.skillsCancelled]
      dismissed := s.dismissed ++ [none] }

/-- The `for i, card in enumerate(self._skill_cards)` scan of
`SkillsModal.on_click`: index of the first card equal to the clicked
widget, if any. -/
def click_scan (w : SkillCard) : List SkillCard → Option Nat
  | [] => none
  | c :: rest =>
      if c = w then some 0 else (click_scan w rest).map (· + 1)

/-- Embeds `SkillsModal.on_click` with the click event's `widget` passed in as
`w`: on the first matching card, set `_selected_index` to its position,
update the selection and perform `action_select` (then `break`); when no
card matches, do nothing. -/
def on_click (s : ModalState) (w : SkillCard) : Option ModalState :=
  match click_scan w s.skill_cards with
  | none => some s
  | some i => action_select (update_selection { s with selected_index := (i : Int) })

/-- The operations a user gesture can invoke on a mounted modal (the
catalog reload `load_skills` is driven by mounting, not by a gesture, and
is treated separately). -/
inductive ModalOp where
  | up
  | down
  | left
  | right
  | select
  | cancel
  | click (w : SkillCard)
deriving Repr, DecidableEq

/-- Run one operation; `none` models an uncaught exception. -/
def applyOp (s : ModalState) : ModalOp → Option ModalState
  | ModalOp.up => some (action_navigate_up s)
  | ModalOp.down => some (action_navigate_down s)
  | ModalOp.left => some (action_navigate_left s)
  | ModalOp.right => some (action_navigate_right s)
  | ModalOp.select => action_select s
  | ModalOp.cancel => some (action_cancel s)
  | ModalOp.click w => on_click s w

/-- Run a finite sequence of operations, stopping at the first
exception. -/
def runOps : ModalState → List ModalOp → Option ModalState
  | s, [] => some s
  | s, op :: rest =>
      match applyOp s op with
      | none => none
      | some s1 => runOps s1 rest

/-- The operations quantified over in the empty-state property: the four
navigation gestures and `Select`. -/
def isNavOrSelect : ModalOp → Bool
  | ModalOp.up => true
  | ModalOp.down => true
  | ModalOp.left => true
  | ModalOp.right => true
  | ModalOp.select => true
  | _ => false

/-- One step of the modal's life after mounting: a (re)load of the catalog
or a user gesture that completes without an exception. -/
inductive ModalStep : ModalState → ModalState → Prop where
  | load (skills : List Skill) (s : ModalState) : ModalStep s (load_skills skills s)
  | gesture (op : ModalOp) (s s' : ModalState) :
      applyOp s op = some s' → ModalStep s s'

/-- States reachable from construction by loads and gestures. -/
inductive ModalReachable : ModalState → Prop where
  | init : ModalReachable initState
  | step {s s' : ModalState} :
      ModalReachable s → ModalStep s s' → ModalReachable s'

/-! ### Title generator (`title_generator.py`)

Python strings are sequences of Unicode code points, as are the `Char`
lists underlying Lean's `String`; `len` is `String.length` and the slice
`s[:n]` is `pyTake n s`. -/

/-- The slice `s[:n]`: the first `n` code points of `s`. -/
def pyTake (n : Nat) (s : String) : String :=
  String.mk (s.data.take n)

/-- The code points stripped by Python's argument-less `str.strip()`
(CPython's `Py_UNICODE_ISSPACE`). -/
def pyIsSpace (c : Char) : Bool :=
  [9, 10, 11, 12, 13, 28, 29, 30, 31, 32, 133, 160, 5760,
   8192, 8193, 8194, 8195, 8196, 8197, 8198, 8199, 8200, 8201, 8202,
   8232, 8233, 8239, 8287, 12288].contains c.toNat

/-- Embeds `str.strip` for an arbitrary character set: drop the matching
characters from both ends. -/
def pyStripPred (p : Char → Bool) (s : String) : String :=
  String.mk (((s.data.dropWhile p).reverse.dropWhile p).reverse)

/-- The character set passed to the second strip call of `_clean_title`:
the double quote (code point 34) and the apostrophe (code point 39). -/
def isQuoteChar (c : Char) : Bool :=
  c.toNat = 34 ∨ c.toNat = 39

/-- Embeds `TitleGenerator._clean_title`: strip whitespace, then strip the
two quote characters, then strip whitespace again. -/
def clean_title (raw : String) : String :=
  pyStripPred pyIsSpace (pyStripPred isQuoteChar (pyStripPred pyIsSpace raw))

/-- The prompt built by `TitleGenerator.generate_title` from the (possibly
truncated) first user message. -/
def buildPrompt (first_message : String) : String :=
  let content :=
    if 200 < first_message.length then pyTake 200 first_message else first_message
  "Generate a concise title (2-4 Chinese words or 3-5 English words) for this conversation.\nReturn ONLY the title, nothing else.\n\nUser message: "
    ++ content ++ "\n\nTitle:"

/-- Embeds `TitleGenerator.generate_title`.  The model call
`await self.model.ainvoke(prompt)` is the collaborator `ainvoke`; a raised
exception is `Except.error` (the surrounding `try`/`except Exception`
catches it and returns `None`), a normal response is `Except.ok` carrying
`str(response.content)`.  A title longer than 30 code points is truncated
to its first 27 plus `"..."`; a falsy (empty) title becomes `None`. -/
def generate_title {ε : Type} (ainvoke : String → Except ε String)
    (first_message : String) : Option String :=
  match ainvoke (buildPrompt first_message) with
  | Except.error _ => none
  | Except.ok content =>
      let title := clean_title content
      let title := if 30 < title.length then pyTake 27 title ++ "..." else title
      if title = "" then none else some title

/-- The raw model output `"  'Hello World'  "` of the spec's title-cleanup
scenario (the apostrophes written as code point 39). -/
def rawHello : String :=
  String.mk ([Char.ofNat 32, Char.ofNat 32, Char.ofNat 39]
    ++ "Hello World".data ++ [Char.ofNat 39, Char.ofNat 32, Char.ofNat 32])

/-! ### Concrete fixtures used in witnesses and counterexamples -/

/-- The one-element catalog `[{name:"x", description:"d", source:"user"}]`
of the spec's selection scenario. -/
def skillX : Skill :=
  { name := "x", description := some "d", source := some "user" }

/-- The four-element catalog `[A,B,C,D]` of the spec's grid-navigation
scenario. -/
def skills4 : List Skill :=
  [ { name := "A", description := some "a", source := some "user" },
    { name := "B", description := some "b", source := some "user" },
    { name := "C", description := some "c", source := some "project" },
    { name := "D", description := some "d", source := some "user" } ]

/-- A mounted modal that loaded the one-element catalog `[skillX]`. -/
def stateX : ModalState := load_skills [skillX] initState

/-- A mounted modal that loaded `[A,B,C,D]` and then navigated `Up` once
from index `0`, wrapping to the last index `3`. -/
def state4at3 : ModalState := action_navigate_up (load_skills skills4 initState)

/-- The state of `stateX` after one resolving `Select`. -/
def selectedStateX : ModalState := (action_select stateX).getD initState

/-- The state of `selectedStateX` after a second `Select` invocation. -/
def selectedStateX2 : ModalState := (action_select selectedStateX).getD initState

/-- The card the modal builds for `skillX` (position `0`). -/
def cardX : SkillCard := mkSkillCard 0 skillX

/-- A mounted modal that loaded the catalog `[A,B,C,D]`. -/
def state4 : ModalState := load_skills skills4 initState

/-- The third card of `state4` (position `2`, record `C`). -/
def cardC : SkillCard := mkSkillCard 2 { name := "C", description := some "c", source := some "project" }

/-- A widget that is none of the displayed cards of `state4`. -/
def strangerCard : SkillCard :=
  { cid := 99, name := "Z", description := "", source := "user" }

/-- A constantly failing model call: `ainvoke` raises. -/
def failingModel : String → Except Unit String := fun _ => Except.error ()

/-- A model call that returns `"  hi  "` for every prompt. -/
def hiModel : String → Except Unit String := fun _ => Except.ok "  hi  "

/-- A model call that returns a 40-code-point title (no whitespace, no
quotes) for every prompt. -/
def longModel : String → Except Unit String :=
  fun _ => Except.ok "0123456789012345678901234567890123456789"

/-- The selection-range invariant of the spec's data model: the selected
index lies in `[-1, len(items) - 1]`, and when there are no displayed
items the index is `-1` (stated as the binder-free disjunction
`items ≠ [] or index = -1`, via `List.isEmpty`). -/
def indexInvariant (s : ModalState) : Prop :=
  -1 ≤ s.selected_index ∧
    s.selected_index ≤ (s.skill_cards.length : Int) - 1 ∧
    (s.skill_cards.isEmpty = false ∨ s.selected_index = -1)

/-! ### Basic facts about the embedded operations (shared helper lemmas) -/

theorem update_selection_skill_cards (s : ModalState) :
    (update_selection s).skill_cards = s.skill_cards := by
  unfold update_selection
  split
  · rfl
  · split <;> rfl

theorem update_selection_selected_index (s : ModalState) :
    (update_selection s).selected_index = s.selected_index := by
  unfold update_selection
  split
  · rfl
  · split <;> rfl

theorem update_selection_posted (s : ModalState) :
    (update_selection s).posted = s.posted := by
  unfold update_selection
  split
  · rfl
  · split <;> rfl

theorem update_selection_dismissed (s : ModalState) :
    (update_selection s).dismissed = s.dismissed := by
  unfold update_selection
  split
  · rfl
  · split <;> rfl

theorem action_select_skill_cards {s s' : ModalState}
    (h : action_select s = some s') : s'.skill_cards = s.skill_cards := by
  unfold action_select at h
  split at h
  · cases h; rfl
  · split at h
    · cases h
    · cases h; rfl

theorem action_select_selected_index {s s' : ModalState}
    (h : action_select s = some s') : s'.selected_index = s.selected_index := by
  unfold action_select at h
  split at h
  · cases h; rfl
  · split at h
    · cases h
    · cases h; rfl

theorem click_scan_some_lt {w : SkillCard} :
    ∀ {l : List SkillCard} {i : Nat}, click_scan w l = some i → i < l.length := by
  intro l
  induction l with
  | nil => intro i h; cases h
  | cons c rest ih =>
      intro i h
      unfold click_scan at h
      split at h
      · cases h; simp
      · cases hrec : click_scan w rest with
        | none => rw [hrec] at h; cases h
        | some j =>
            rw [hrec] at h
            simp only [Option.map_some'] at h
            cases h
            have := ih hrec
            simp only [List.length_cons]
            omega

theorem click_scan_some_get {w : SkillCard} :
    ∀ {l : List SkillCard} {i : Nat}, click_scan w l = some i → l[i]? = some w := by
  intro l
  induction l with
  | nil => intro i h; cases h
  | cons c rest ih =>
      intro i h
      unfold click_scan at h
      split at h
      · next heq =>
          cases h
          simp [heq]
      · cases hrec : click_scan w rest with
        | none => rw [hrec] at h; cases h
        | some j =>
            rw [hrec] at h
            simp only [Option.map_some'] at h
            cases h
            simpa using ih hrec

theorem click_scan_of_get {w : SkillCard} :
    ∀ {l : List SkillCard} {i : Nat}, l.Nodup → l[i]? = some w →
      click_scan w l = some i := by
  intro l
  induction l with
  | nil => intro i _ h; cases h
  | cons c rest ih =>
      intro i hnd h
      rcases List.nodup_cons.mp hnd with ⟨hcnot, hndr⟩
      cases i with
      | zero =>
          simp only [List.getElem?_cons_zero, Option.some_inj] at h
          unfold click_scan
          simp [h]
      | succ j =>
          simp only [List.getElem?_cons_succ] at h
          have hne : ¬ c = w := by
            intro hcw
            exact hcnot (hcw ▸ List.getElem?_mem h)
          unfold click_scan
          simp [hne, ih hndr h]

theorem click_scan_none_of_not_mem {w : SkillCard} :
    ∀ {l : List SkillCard}, (∀ c ∈ l, c ≠ w) → click_scan w l = none := by
  intro l
  induction l with
  | nil => intro _; rfl
  | cons c rest ih =>
      intro h
      unfold click_scan
      have hc : ¬ c = w := h c (List.mem_cons_self c rest)
      simp [hc, ih fun x hx => h x (List.mem_cons_of_mem c hx)]

theorem action_navigate_up_range (s : ModalState)
    (hcount : 1 ≤ s.skill_cards.length)
    (hlo : 0 ≤ s.selected_index)
    (hhi : s.selected_index < (s.skill_cards.length : Int)) :
    0 ≤ (action_navigate_up s).selected_index ∧
      (action_navigate_up s).selected_index
        < ((action_navigate_up s).skill_cards.length : Int) := by
  have hne : s.skill_cards ≠ [] := by
    intro h
    rw [h] at hcount
    exact absurd hcount (by decide)
  unfold action_navigate_up
  rw [if_neg (by push_neg; exact ⟨hne, hlo⟩)]
  simp only [update_selection_selected_index, update_selection_skill_cards]
  split <;> omega

theorem action_navigate_down_range (s : ModalState)
    (hcount : 1 ≤ s.skill_cards.length)
    (hlo : 0 ≤ s.selected_index)
    (_hhi : s.selected_index < (s.skill_cards.length : Int)) :
    0 ≤ (action_navigate_down s).selected_index ∧
      (action_navigate_down s).selected_index
        < ((action_navigate_down s).skill_cards.length : Int) := by
  have hne : s.skill_cards ≠ [] := by
    intro h
    rw [h] at hcount
    exact absurd hcount (by decide)
  unfold action_navigate_down
  rw [if_neg hne]
  simp only [update_selection_selected_index, update_selection_skill_cards]
  split <;> omega

theorem action_navigate_left_range (s : ModalState)
    (hcount : 1 ≤ s.skill_cards.length)
    (hlo : 0 ≤ s.selected_index)
    (hhi : s.selected_index < (s.skill_cards.length : Int)) :
    0 ≤ (action_navigate_left s).selected_index ∧
      (action_navigate_left s).selected_index
        < ((action_navigate_left s).skill_cards.length : Int) := by
  have hne : s.skill_cards ≠ [] := by
    intro h
    rw [h] at hcount
    exact absurd hcount (by decide)
  unfold action_navigate_left
  rw [if_neg (by push_neg; exact ⟨hne, hlo⟩)]
  simp only [update_selection_selected_index, update_selection_skill_cards]
  split <;> omega

theorem action_navigate_right_range (s : ModalState)
    (hcount : 1 ≤ s.skill_cards.length)
    (hlo : 0 ≤ s.selected_index)
    (_hhi : s.selected_index < (s.skill_cards.length : Int)) :
    0 ≤ (action_navigate_right s).selected_index ∧
      (action_navigate_right s).selected_index
        < ((action_navigate_right s).skill_cards.length : Int) := by
  have hne : s.skill_cards ≠ [] := by
    intro h
    rw [h] at hcount
    exact absurd hcount (by decide)
  unfold action_navigate_right
  rw [if_neg hne]
  simp only [update_selection_selected_index, update_selection_skill_cards]
  split <;> omega

/-- Claim C1: for every loaded catalog with `count ≥ 1` and every selected
index in `[0, count)`, each of the four navigation operations (`Up`,
`Down`, `Left`, `Right`) completes without raising an exception (the
gesture returns a state, `some …`) and leaves the selected index in
`[0, count)`. -/
theorem navigation_total_in_range (s : ModalState)
    (hcount : 1 ≤ s.skill_cards.length)
    (hsel : 0 ≤ s.selected_index ∧ s.selected_index < (s.skill_cards.length : Int)) :
    (applyOp s ModalOp.up = some (action_navigate_up s) ∧
       0 ≤ (action_navigate_up s).selected_index ∧
       (action_navigate_up s).selected_index
         < ((action_navigate_up s).skill_cards.length : Int)) ∧
    (applyOp s ModalOp.down = some (action_navigate_down s) ∧
       0 ≤ (action_navigate_down s).selected_index ∧
       (action_navigate_down s).selected_index
         < ((action_navigate_down s).skill_cards.length : Int)) ∧
    (applyOp s ModalOp.left = some (action_navigate_left s) ∧
       0 ≤ (action_navigate_left s).selected_index ∧
       (action_navigate_left s).selected_index
         < ((action_navigate_left s).skill_cards.length : Int)) ∧
    (applyOp s ModalOp.right = some (action_navigate_right s) ∧
       0 ≤ (action_navigate_right s).selected_index ∧
       (action_navigate_right s).selected_index
         < ((action_navigate_right s).skill_cards.length : Int)) :=
  ⟨⟨rfl, action_navigate_up_range s hcount hsel.1 hsel.2⟩,
   ⟨rfl, action_navigate_down_range s hcount hsel.1 hsel.2⟩,
   ⟨rfl, action_navigate_left_range s hcount hsel.1 hsel.2⟩,
   ⟨rfl, action_navigate_right_range s hcount hsel.1 hsel.2⟩⟩

/-- Witness for `navigation_total_in_range`: the four-skill catalog with
the last index selected. -/
theorem navigation_total_in_range_witness :
    (1 ≤ state4at3.skill_cards.length ∧
       0 ≤ state4at3.selected_index ∧
       state4at3.selected_index < (state4at3.skill_cards.length : Int)) ∧
    ((applyOp state4at3 ModalOp.up = some (action_navigate_up state4at3) ∧
        0 ≤ (action_navigate_up state4at3).selected_index ∧
        (action_navigate_up state4at3).selected_index
          < ((action_navigate_up state4at3).skill_cards.length : Int)) ∧
     (applyOp state4at3 ModalOp.down = some (action_navigate_down state4at3) ∧
        0 ≤ (action_navigate_down state4at3).selected_index ∧
        (action_navigate_down state4at3).selected_index
          < ((action_navigate_down state4at3).skill_cards.length : Int)) ∧
     (applyOp state4at3 ModalOp.left = some (action_navigate_left state4at3) ∧
        0 ≤ (action_navigate_left state4at3).selected_index ∧
        (action_navigate_left state4at3).selected_index
          < ((action_navigate_left state4at3).skill_cards.length : Int)) ∧
     (applyOp state4at3 ModalOp.right = some (action_navigate_right state4at3) ∧
        0 ≤ (action_navigate_right state4at3).selected_index ∧
        (action_navigate_right state4at3).selected_index
          < ((action_navigate_right state4at3).skill_cards.length : Int))) :=
  ⟨by decide, navigation_total_in_range state4at3 (by decide) (by decide)⟩

/-- Claim C3 counterexample: on the catalog `[A,B,C,D]` (`count = 4`) with
current index `3`, `Down` sets the index to `0`, while the claimed formula
`(current_index + items_per_row) mod count` gives `(3 + 2) % 4 = 1`. -/
theorem navigate_down_mod_cx :
    (action_navigate_down state4at3).selected_index
      ≠ (state4at3.selected_index + 2) % (state4at3.skill_cards.length : Int) := by
  decide

/-- Claim C3 amended: for every `count ≥ 1` and every current index in
`[0, count)`, `Down` in the 2-column grid yields
`current_index + 2` when that is still `< count`, and otherwise wraps to
`0` (not to `(current_index + 2) mod count`). -/
theorem navigate_down_wraps_to_zero (s : ModalState)
    (hcount : 1 ≤ s.skill_cards.length)
    (_hlo : 0 ≤ s.selected_index)
    (hhi : s.selected_index < (s.skill_cards.length : Int)) :
    (action_navigate_down s).selected_index =
      if s.selected_index + 2 < (s.skill_cards.length : Int)
      then s.selected_index + 2 else 0 := by
  have hne : s.skill_cards ≠ [] := by
    intro h
    rw [h] at hcount
    exact absurd hcount (by decide)
  unfold action_navigate_down
  rw [if_neg hne]
  simp only [update_selection_selected_index]
  split <;> split <;> omega

/-- Witness for `navigate_down_wraps_to_zero`: from index `3` of `4` the
result is `0`; from index `0` of `4` the result is `2`. -/
theorem navigate_down_wraps_to_zero_witness :
    ((action_navigate_down state4at3).selected_index =
       if state4at3.selected_index + 2 < (state4at3.skill_cards.length : Int)
       then state4at3.selected_index + 2 else 0) ∧
    ((action_navigate_down (load_skills skills4 initState)).selected_index =
       if (load_skills skills4 initState).selected_index + 2
           < ((load_skills skills4 initState).skill_cards.length : Int)
       then (load_skills skills4 initState).selected_index + 2 else 0) :=
  ⟨navigate_down_wraps_to_zero state4at3 (by decide) (by decide) (by decide),
   navigate_down_wraps_to_zero (load_skills skills4 initState)
     (by decide) (by decide) (by decide)⟩

/-- Claim C4: starting from an empty catalog (no cards, selected index `-1`),
every finite sequence of navigation and `Select` gestures completes
without an exception and leaves the state — in particular the selected
index (`-1`) and the list of posted messages — exactly unchanged, so no
`SkillsSelected` message is ever posted. -/
theorem empty_state_inert (s : ModalState)
    (hcards : s.skill_cards = []) (_hsel : s.selected_index = -1)
    (ops : List ModalOp) (hops : ops.all isNavOrSelect = true) :
    runOps s ops = some s := by
  rw [List.all_eq_true] at hops
  induction ops with
  | nil => rfl
  | cons op rest ih =>
      have hop : isNavOrSelect op = true := hops op (List.mem_cons_self op rest)
      have hstep : applyOp s op = some s := by
        cases op with
        | up =>
            simp only [applyOp, Option.some_inj]
            unfold action_navigate_up
            rw [if_pos (Or.inl hcards)]
        | down =>
            simp only [applyOp, Option.some_inj]
            unfold action_navigate_down
            rw [if_pos hcards]
        | left =>
            simp only [applyOp, Option.some_inj]
            unfold action_navigate_left
            rw [if_pos (Or.inl hcards)]
        | right =>
            simp only [applyOp, Option.some_inj]
            unfold action_navigate_right
            rw [if_pos hcards]
        | select =>
            simp only [applyOp]
            unfold action_select
            rw [if_pos (Or.inl hcards)]
        | cancel => exact absurd hop (by simp [isNavOrSelect])
        | click w => exact absurd hop (by simp [isNavOrSelect])
      simp only [runOps, hstep]
      exact ih fun op hmem => hops op (List.mem_cons_of_mem _ hmem)

/-- Witness for `empty_state_inert`: a six-gesture sequence on the fresh
(empty-catalog) modal leaves it untouched. -/
theorem empty_state_inert_witness :
    initState.skill_cards = [] ∧ initState.selected_index = -1 ∧
      ([ModalOp.down, ModalOp.select, ModalOp.up, ModalOp.right,
          ModalOp.left, ModalOp.select].all isNavOrSelect = true) ∧
      runOps initState
        [ModalOp.down, ModalOp.select, ModalOp.up, ModalOp.right,
          ModalOp.left, ModalOp.select] = some initState :=
  ⟨rfl, rfl, by decide,
   empty_state_inert initState rfl rfl
     [ModalOp.down, ModalOp.select, ModalOp.up, ModalOp.right,
       ModalOp.left, ModalOp.select] (by decide)⟩

/-- Claim C2 counterexample: a load that yields an empty catalog does not
replace the prior state.  From the prior state `stateX` (one displayed
card, selected index `0`), `_load_skills` with an empty catalog leaves the
displayed card in place and the selected index at `0`, not `-1`: the
empty branch only toggles the display flags and returns. -/
theorem load_empty_keeps_prior_state_cx :
    (load_skills [] stateX).skill_cards.length = 1 ∧
      (load_skills [] stateX).selected_index = 0 ∧
      (load_skills [] stateX).selected_index ≠ -1 := by
  decide

/-- Claim C2 amended: a load that yields a non-empty catalog fully replaces
the selection state — the selected index becomes `0` and the displayed
cards are exactly the loaded records (name, description with default
`""`, lower-cased source with default `"user"`), for every prior state.
A load that yields an empty catalog, however, leaves the displayed cards
and the selected index unchanged (it only hides the grid and shows the
empty-state message); in particular from the initial, never-loaded state
it leaves the state `Empty` with selected index `-1`. -/
theorem load_skills_spec (s : ModalState) (skills : List Skill) :
    (skills ≠ [] →
       (load_skills skills s).selected_index = 0 ∧
       (load_skills skills s).skill_cards.length = skills.length ∧
       ∀ (i : Nat) (c : SkillCard),
         (load_skills skills s).skill_cards[i]? = some c →
         ∃ sk, skills[i]? = some sk ∧ c.name = sk.name ∧
           c.description = sk.description.getD "" ∧
           c.source = pyLower (sk.source.getD "user")) ∧
    ((load_skills [] s).skill_cards = s.skill_cards ∧
       (load_skills [] s).selected_index = s.selected_index) := by
  constructor
  · intro hne
    have hcards_ne : skills.enum.map (fun p => mkSkillCard p.1 p.2) ≠ [] := by
      intro h
      have hlen := congrArg List.length h
      simp only [List.length_map, List.enum_length, List.length_nil] at hlen
      exact hne (List.length_eq_zero.mp hlen)
    unfold load_skills
    rw [if_neg hne]
    simp only
    rw [if_neg hcards_ne]
    refine ⟨update_selection_selected_index _, ?_, ?_⟩
    · rw [update_selection_skill_cards]
      simp [List.enum_length]
    · intro i c hc
      rw [update_selection_skill_cards] at hc
      simp only [List.getElem?_map, List.getElem?_enum] at hc
      cases hsk : skills[i]? with
      | none => rw [hsk] at hc; cases hc
      | some sk =>
          rw [hsk] at hc
          simp only [Option.map_some', Option.some_inj] at hc
          exact ⟨sk, rfl, by rw [← hc]; rfl, by rw [← hc]; rfl, by rw [← hc]; rfl⟩
  · constructor
    · rfl
    · rfl

/-- Witness for `load_skills_spec`: loading the one-element catalog
`[skillX]` over the fresh state selects index `0`, shows one card, and
that card carries the record's fields. -/
theorem load_skills_spec_witness :
    (load_skills [skillX] initState).selected_index = 0 ∧
      (load_skills [skillX] initState).skill_cards.length = [skillX].length ∧
      ((load_skills [] stateX).skill_cards = stateX.skill_cards ∧
        (load_skills [] stateX).selected_index = stateX.selected_index) :=
  ⟨((load_skills_spec initState [skillX]).1 (by decide)).1,
   ((load_skills_spec initState [skillX]).1 (by decide)).2.1,
   (load_skills_spec stateX [skillX]).2⟩

theorem action_select_eq {s : ModalState} {c : SkillCard}
    (hsel : 0 ≤ s.selected_index)
    (hget : s.skill_cards[s.selected_index.toNat]? = some c) :
    action_select s = some { s with
        posted := s.posted ++ [SkillsMessage.skillsSelected c.get_skill_name]
        dismissed := s.dismissed ++ [some c.get_skill_name] } := by
  have hne : s.skill_cards ≠ [] := by
    intro h
    rw [h] at hget
    cases hget
  unfold action_select
  rw [if_neg (by push_neg; exact ⟨hne, hsel⟩), hget]

/-- Claim C5 counterexample: one `Select` on `stateX` (one card named
`"x"`, selected) resolves the modal — it posts `SkillsSelected "x"` and
dismisses — yet a second `Select` invocation on the resulting state posts
a further `SkillsSelected "x"`: the modal's own code contains no guard
against emitting after resolution. -/
theorem select_after_resolution_cx :
    ((action_select stateX).bind action_select).map ModalState.posted
        = some [SkillsMessage.skillsSelected "x", SkillsMessage.skillsSelected "x"] ∧
      (action_select stateX).map ModalState.dismissed = some [some "x"] := by
  decide

/-- Claim C5 amended: at-most-one notification holds per *invocation*, not
per modal lifetime: every `Cancel` invocation posts exactly one
`SkillsCancelled`, and every `Select` invocation that completes posts
either nothing (empty catalog / no selection) or exactly one
`SkillsSelected`.  The modal's own code does not prevent a resolved
instance from emitting again on a subsequent `Select` or `Cancel`
invocation; suppression after dismissal is left to the hosting framework,
which stops dispatching gestures to a dismissed screen. -/
theorem notifications_per_invocation (s : ModalState) :
    ((action_cancel s).posted = s.posted ++ [SkillsMessage.skillsCancelled]) ∧
      ∀ s', action_select s = some s' →
        s'.posted = s.posted ∨
          ∃ n, s'.posted = s.posted ++ [SkillsMessage.skillsSelected n] := by
  constructor
  · rfl
  · intro s' h
    unfold action_select at h
    split at h
    · cases h
      exact Or.inl rfl
    · split at h
      · cases h
      · cases h
        exact Or.inr ⟨_, rfl⟩

/-- Witness for `notifications_per_invocation` at the resolved state
`selectedStateX`: the second `Cancel` and the second `Select` each append
one more notification. -/
theorem notifications_per_invocation_witness :
    ((action_cancel selectedStateX).posted
        = selectedStateX.posted ++ [SkillsMessage.skillsCancelled]) ∧
      (selectedStateX2.posted = selectedStateX.posted ∨
        ∃ n, selectedStateX2.posted
          = selectedStateX.posted ++ [SkillsMessage.skillsSelected n]) :=
  ⟨(notifications_per_invocation selectedStateX).1,
   (notifications_per_invocation selectedStateX).2 selectedStateX2 (by decide)⟩

/-- Claim C6: in `Active` state — some card at the (non-negative) selected
index — `Select` completes and posts exactly one `SkillsSelected` message
carrying the name of the card at the selected index, and dismisses the
modal with that name. -/
theorem select_posts_selected (s : ModalState) (c : SkillCard)
    (hsel : 0 ≤ s.selected_index)
    (hget : s.skill_cards[s.selected_index.toNat]? = some c) :
    (action_select s).map ModalState.posted
        = some (s.posted ++ [SkillsMessage.skillsSelected c.get_skill_name]) ∧
      (action_select s).map ModalState.dismissed
        = some (s.dismissed ++ [some c.get_skill_name]) := by
  rw [action_select_eq hsel hget]
  exact ⟨rfl, rfl⟩

/-- Witness for `select_posts_selected`: on the one-element catalog
`[{name:"x", description:"d", source:"user"}]`, `Select` posts
`SkillsSelected "x"` and dismisses with `"x"`. -/
theorem select_posts_selected_witness :
    cardX.get_skill_name = "x" ∧
      stateX.posted = [] ∧
      ((action_select stateX).map ModalState.posted
          = some (stateX.posted ++ [SkillsMessage.skillsSelected cardX.get_skill_name]) ∧
        (action_select stateX).map ModalState.dismissed
          = some (stateX.dismissed ++ [some cardX.get_skill_name])) :=
  ⟨rfl, rfl, select_posts_selected stateX cardX (by decide) (by decide)⟩

/-- Claim C7: a click whose target widget is the `i`-th displayed card (the
cards are pairwise distinct widgets, as built by `_load_skills`) sets the
selected index to `i` and immediately performs `Select`, posting
`SkillsSelected` with that card's name and dismissing with it; a click
whose target matches no displayed card changes nothing and emits
nothing. -/
theorem click_selects_card (s : ModalState) (w : SkillCard) :
    (s.skill_cards.Nodup →
       ∀ i : Nat, s.skill_cards[i]? = some w →
         (on_click s w).map ModalState.selected_index = some (i : Int) ∧
         (on_click s w).map ModalState.posted
           = some (s.posted ++ [SkillsMessage.skillsSelected w.get_skill_name]) ∧
         (on_click s w).map ModalState.dismissed
           = some (s.dismissed ++ [some w.get_skill_name])) ∧
    ((∀ c ∈ s.skill_cards, c ≠ w) → on_click s w = some s) := by
  constructor
  · intro hnd i hi
    have hscan : click_scan w s.skill_cards = some i := click_scan_of_get hnd hi
    unfold on_click
    rw [hscan]
    dsimp only
    have hsel :
        0 ≤ (update_selection { s with selected_index := (i : Int) }).selected_index := by
      rw [update_selection_selected_index]
      exact Int.ofNat_nonneg i
    have hget :
        (update_selection { s with selected_index := (i : Int) }).skill_cards[
            (update_selection { s with
              selected_index := (i : Int) }).selected_index.toNat]? = some w := by
      rw [update_selection_skill_cards, update_selection_selected_index]
      simpa using hi
    rw [action_select_eq hsel hget]
    simp only [Option.map_some']
    refine ⟨?_, ?_, ?_⟩
    · simp [update_selection_selected_index]
    · simp [update_selection_posted]
    · simp [update_selection_dismissed]
  · intro hnone
    unfold on_click
    rw [click_scan_none_of_not_mem hnone]

/-- Witness for `click_selects_card`: clicking the third card of the
four-skill catalog selects index `2` and resolves with `"C"`; clicking a
widget that is none of the cards is a no-op. -/
theorem click_selects_card_witness :
    ((on_click state4 cardC).map ModalState.selected_index = some ((2 : Nat) : Int) ∧
       (on_click state4 cardC).map ModalState.posted
         = some (state4.posted ++ [SkillsMessage.skillsSelected cardC.get_skill_name]) ∧
       (on_click state4 cardC).map ModalState.dismissed
         = some (state4.dismissed ++ [some cardC.get_skill_name])) ∧
      on_click state4 strangerCard = some state4 :=
  ⟨(click_selects_card state4 cardC).1 (by decide) 2 (by decide),
   (click_selects_card state4 strangerCard).2 (by decide)⟩

theorem inv_navigate_up {s : ModalState} (h : indexInvariant s) :
    indexInvariant (action_navigate_up s) := by
  unfold action_navigate_up
  split
  · exact h
  · next hguard =>
      push_neg at hguard
      obtain ⟨hne, hsel⟩ := hguard
      obtain ⟨h1, h2, _⟩ := h
      have hlen : 0 < s.skill_cards.length := List.length_pos.mpr hne
      unfold indexInvariant
      simp only [update_selection_skill_cards, update_selection_selected_index]
      refine ⟨?_, ?_, Or.inl (List.isEmpty_eq_false.mpr hne)⟩ <;> split <;> omega

theorem inv_navigate_down {s : ModalState} (h : indexInvariant s) :
    indexInvariant (action_navigate_down s) := by
  unfold action_navigate_down
  split
  · exact h
  · next hne =>
      obtain ⟨h1, h2, _⟩ := h
      have hlen : 0 < s.skill_cards.length := List.length_pos.mpr hne
      unfold indexInvariant
      simp only [update_selection_skill_cards, update_selection_selected_index]
      refine ⟨?_, ?_, Or.inl (List.isEmpty_eq_false.mpr hne)⟩ <;> split <;> omega

theorem inv_navigate_left {s : ModalState} (h : indexInvariant s) :
    indexInvariant (action_navigate_left s) := by
  unfold action_navigate_left
  split
  · exact h
  · next hguard =>
      push_neg at hguard
      obtain ⟨hne, hsel⟩ := hguard
      obtain ⟨h1, h2, _⟩ := h
      have hlen : 0 < s.skill_cards.length := List.length_pos.mpr hne
      unfold indexInvariant
      simp only [update_selection_skill_cards, update_selection_selected_index]
      refine ⟨?_, ?_, Or.inl (List.isEmpty_eq_false.mpr hne)⟩ <;> split <;> omega

theorem inv_navigate_right {s : ModalState} (h : indexInvariant s) :
    indexInvariant (action_navigate_right s) := by
  unfold action_navigate_right
  split
  · exact h
  · next hne =>
      obtain ⟨h1, h2, _⟩ := h
      have hlen : 0 < s.skill_cards.length := List.length_pos.mpr hne
      unfold indexInvariant
      simp only [update_selection_skill_cards, update_selection_selected_index]
      refine ⟨?_, ?_, Or.inl (List.isEmpty_eq_false.mpr hne)⟩ <;> split <;> omega

theorem inv_select {s s' : ModalState} (h : indexInvariant s)
    (hs : action_select s = some s') : indexInvariant s' := by
  unfold indexInvariant at h ⊢
  rw [action_select_selected_index hs, action_select_skill_cards hs]
  exact h

theorem inv_cancel {s : ModalState} (h : indexInvariant s) :
    indexInvariant (action_cancel s) :=
  h

theorem inv_click {s s' : ModalState} {w : SkillCard} (h : indexInvariant s)
    (hc : on_click s w = some s') : indexInvariant s' := by
  unfold on_click at hc
  cases hscan : click_scan w s.skill_cards with
  | none =>
      rw [hscan] at hc
      cases hc
      exact h
  | some i =>
      rw [hscan] at hc
      dsimp only at hc
      have hlt : i < s.skill_cards.length := click_scan_some_lt hscan
      unfold indexInvariant
      rw [action_select_selected_index hc, action_select_skill_cards hc,
          update_selection_selected_index, update_selection_skill_cards]
      refine ⟨?_, ?_, Or.inl ?_⟩
      · dsimp only
        omega
      · dsimp only
        omega
      · dsimp only
        exact List.isEmpty_eq_false.mpr (List.ne_nil_of_length_pos (by omega))

theorem inv_load {s : ModalState} (skills : List Skill) (h : indexInvariant s) :
    indexInvariant (load_skills skills s) := by
  unfold load_skills
  split
  · exact h
  · next hne =>
      simp only
      split
      · next hnil =>
          exfalso
          apply hne
          have hlen := congrArg List.length hnil
          simp only [List.length_map, List.enum_length, List.length_nil] at hlen
          exact List.length_eq_zero.mp hlen
      · next hcne =>
          unfold indexInvariant
          rw [update_selection_selected_index, update_selection_skill_cards]
          have hpos : 0 < (skills.enum.map fun p => mkSkillCard p.1 p.2).length :=
            List.length_pos.mpr hcne
          refine ⟨?_, ?_, Or.inl ?_⟩
          · dsimp only
            omega
          · dsimp only
            omega
          · dsimp only
            exact List.isEmpty_eq_false.mpr hcne

/-- Claim C8: in every state reachable from construction by any sequence of
catalog loads, navigation, `Select`, `Cancel` and click gestures, the
selected index lies in `[-1, len(items) - 1]`, and it equals `-1`
whenever the item list is empty (which is exactly the construction-time
situation, since a load can only add items). -/
theorem selected_index_invariant (s : ModalState) (h : ModalReachable s) :
    indexInvariant s := by
  induction h with
  | init => exact ⟨by decide, by decide, Or.inr rfl⟩
  | step _ hstep ih =>
      cases hstep with
      | load skills s => exact inv_load skills ih
      | gesture op s s' hop =>
          cases op with
          | up =>
              simp only [applyOp, Option.some_inj] at hop
              rw [← hop]
              exact inv_navigate_up ih
          | down =>
              simp only [applyOp, Option.some_inj] at hop
              rw [← hop]
              exact inv_navigate_down ih
          | left =>
              simp only [applyOp, Option.some_inj] at hop
              rw [← hop]
              exact inv_navigate_left ih
          | right =>
              simp only [applyOp, Option.some_inj] at hop
              rw [← hop]
              exact inv_navigate_right ih
          | select => exact inv_select ih hop
          | cancel =>
              simp only [applyOp, Option.some_inj] at hop
              rw [← hop]
              exact inv_cancel ih
          | click w => exact inv_click ih hop

/-- Witness for `selected_index_invariant`: the freshly constructed modal
is reachable and satisfies the invariant. -/
theorem selected_index_invariant_witness : indexInvariant initState :=
  selected_index_invariant initState ModalReachable.init

theorem truncated_title_length {t : String} (h : 30 < t.length) :
    (pyTake 27 t ++ "...").length = 30 := by
  have hdata : t.data.length = t.length := rfl
  have h1 : (pyTake 27 t).length = 27 := by
    simp only [pyTake, String.length_mk, List.length_take]
    omega
  rw [String.length_append, h1]
  rfl

theorem truncated_title_ne_empty {t : String} (h : 30 < t.length) :
    pyTake 27 t ++ "..." ≠ "" := by
  intro heq
  have hlen := congrArg String.length heq
  rw [truncated_title_length h] at hlen
  exact absurd hlen (by decide)

/-- Claim C9: `_clean_title` turns the raw model output `"  'Hello World'  "`
into `"Hello World"` (surrounding whitespace and quotes removed), and
whenever the cleaned title exceeds 30 code points, `generate_title`
returns its first 27 code points followed by the 3-code-point marker
`"..."`, total length exactly 30. -/
theorem title_cleanup_spec :
    clean_title rawHello = "Hello World" ∧
      ∀ {ε : Type} (f : String → Except ε String) (msg raw : String),
        f (buildPrompt msg) = Except.ok raw → 30 < (clean_title raw).length →
          generate_title f msg = some (pyTake 27 (clean_title raw) ++ "...") ∧
            (pyTake 27 (clean_title raw) ++ "...").length = 30 := by
  constructor
  · decide
  · intro ε f msg raw hok hlen
    refine ⟨?_, truncated_title_length hlen⟩
    unfold generate_title
    rw [hok]
    simp only
    rw [if_pos hlen, if_neg (truncated_title_ne_empty hlen)]

/-- Witness for `title_cleanup_spec`: a 40-code-point model output is
truncated to exactly 30. -/
theorem title_cleanup_spec_witness :
    clean_title rawHello = "Hello World" ∧
      (generate_title longModel "m"
          = some (pyTake 27
              (clean_title "0123456789012345678901234567890123456789") ++ "...") ∧
        (pyTake 27
            (clean_title "0123456789012345678901234567890123456789") ++ "...").length
          = 30) :=
  ⟨title_cleanup_spec.1,
   title_cleanup_spec.2 longModel "m" "0123456789012345678901234567890123456789"
     rfl (by decide)⟩

/-- Claim C10: `generate_title` never propagates an exception: whenever the
model call raises (`Except.error`), or the cleaned title is empty, the
result is `none`; otherwise it is `some` of the cleaned — and, past 30
code points, truncated — non-empty title. -/
theorem generate_title_no_exception {ε : Type} (f : String → Except ε String)
    (msg : String) :
    (∀ e, f (buildPrompt msg) = Except.error e → generate_title f msg = none) ∧
      (∀ raw, f (buildPrompt msg) = Except.ok raw → clean_title raw = "" →
        generate_title f msg = none) ∧
      (∀ raw, f (buildPrompt msg) = Except.ok raw → clean_title raw ≠ "" →
        generate_title f msg
          = some (if 30 < (clean_title raw).length
                  then pyTake 27 (clean_title raw) ++ "..."
                  else clean_title raw)) := by
  refine ⟨?_, ?_, ?_⟩
  · intro e he
    unfold generate_title
    rw [he]
  · intro raw hok hempty
    unfold generate_title
    rw [hok]
    simp only
    rw [hempty]
    simp
  · intro raw hok hne
    unfold generate_title
    rw [hok]
    simp only
    by_cases hlen : 30 < (clean_title raw).length
    · rw [if_pos hlen, if_neg (truncated_title_ne_empty hlen)]
    · rw [if_neg hlen, if_neg hne]

/-- Witness for `generate_title_no_exception`: a raising model call yields
`none`; the output `"  hi  "` is cleaned to `"hi"` and returned. -/
theorem generate_title_no_exception_witness :
    generate_title failingModel "hello" = none ∧
      generate_title hiModel "hello"
        = some (if 30 < (clean_title "  hi  ").length
                then pyTake 27 (clean_title "  hi  ") ++ "..."
                else clean_title "  hi  ") :=
  ⟨(generate_title_no_exception failingModel "hello").1 () rfl,
   (generate_title_no_exception hiModel "hello").2.2 "  hi  " rfl (by decide)⟩
